import Mathlib

/-!
Shallow embedding of the SDK-initialization code of the mobile app:

* `AdjustService.retrieveAdidWithRetry` (bounded-attempt, time-budgeted
  exponential-backoff retrieval of an advertising id), and
* `SDKInitializer` (`initializeAll`, `reset`, the `status` getter) from
  `src/mobile/src/services/revenuecatService.ts`.

Time is modelled explicitly: the clock advances by exactly the slept delay
during a `setTimeout` suspension and by `lookupTime a` milliseconds during
the `a`-th `Adjust.getAdid` call.  The lookup itself is an oracle
`Nat → Except Unit (Option String)`: `.error` models a throwing/rejecting
attempt, `.ok none` a null result, `.ok (some v)` a retrieved string,
counted as a success only when truthy (JS `if (result)`: the empty string
is a miss).
-/

namespace MobileSDK

/-- Observable events of one `retrieveAdidWithRetry` run: a backoff sleep
(recording the attempt it precedes, the slept duration, and the remaining
budget `maxTotalTimeMs - elapsed - cumulativeDelay` computed just before),
and the start of a lookup attempt (recording the elapsed time at that
moment). -/
inductive REvent where
  | sleep (forAttempt : Nat) (ms : Nat) (remainingBefore : Nat)
  | attempt (idx : Nat) (elapsedAtStart : Nat)
deriving Repr, DecidableEq

/-- How the retry loop ended. -/
inductive ExitReason where
  | success
  | attemptsExhausted
  | timeBeforeAttempt
  | timeAfterDelay
deriving Repr, DecidableEq

/-- Result of a `retrieveAdidWithRetry` run: the returned value, the number
of lookup invocations, the event log, and the way the loop ended. -/
structure RetryRun where
  result : Option String
  count : Nat
  events : List REvent
  reason : ExitReason
deriving Repr, DecidableEq

/-- `remainingTime = maxTotalTimeMs - elapsedTime - cumulativeDelay`
(`src/unnamed/part_000`, line 50), computed in `Int` as in JS. -/
def remainingBudget (maxTotalTimeMs elapsed cumulativeDelay : Nat) : Int :=
  (maxTotalTimeMs : Int) - elapsed - cumulativeDelay

/-- The backoff delay of an attempt (lines 58-61):
`attempt === 1 ? initialDelayMs : min(initialDelayMs * 2^(attempt-2), remainingTime)`. -/
def backoffDelay (initialDelayMs attempt : Nat) (remainingTime : Int) : Nat :=
  if attempt = 1 then initialDelayMs
  else min (initialDelayMs * 2 ^ (attempt - 2)) remainingTime.toNat

/-- Elapsed clock right after the conditional pre-attempt wait (lines
63-70): the delay is slept only when `attempt > 1`. -/
def sleptElapsed (initialDelayMs maxTotalTimeMs attempt elapsed cumulativeDelay : Nat) : Nat :=
  if attempt > 1 then
    elapsed +
      backoffDelay initialDelayMs attempt (remainingBudget maxTotalTimeMs elapsed cumulativeDelay)
  else elapsed

/-- `cumulativeDelay` right after the conditional pre-attempt wait (line 67). -/
def sleptCum (initialDelayMs maxTotalTimeMs attempt elapsed cumulativeDelay : Nat) : Nat :=
  if attempt > 1 then
    cumulativeDelay +
      backoffDelay initialDelayMs attempt (remainingBudget maxTotalTimeMs elapsed cumulativeDelay)
  else cumulativeDelay

/-- Event log right after the conditional pre-attempt wait: when the loop
sleeps, the sleep is recorded with its attempt, duration and the remaining
budget read just before. -/
def sleptAcc (initialDelayMs maxTotalTimeMs attempt elapsed cumulativeDelay : Nat)
    (acc : List REvent) : List REvent :=
  if attempt > 1 then
    REvent.sleep attempt
      (backoffDelay initialDelayMs attempt (remainingBudget maxTotalTimeMs elapsed cumulativeDelay))
      (remainingBudget maxTotalTimeMs elapsed cumulativeDelay).toNat :: acc
  else acc

/-- JS truthiness of a `string | null` value: `null` and `""` are falsy. -/
def isTruthy : Option String → Bool
  | none => false
  | some s => s != ""

/-- The `string | null` outcome of one lookup attempt: a thrown/rejected
attempt is caught (`src/unnamed/part_000`, lines 95-97) and, like a null
result, yields no value for the success test. -/
def attemptResult : Except Unit (Option String) → Option String
  | .ok v => v
  | .error _ => none

/-- The body of `retrieveAdidWithRetry`'s `for` loop
(`src/unnamed/part_000`, lines 47-98), with the loop expressed by
structural recursion on `fuel`; the top-level call sets
`fuel = maxAttempts` and `attempt = 1`, so `fuel + attempt = maxAttempts + 1`
throughout and the `fuel = 0` base case coincides with the source's
`attempt <= maxAttempts` loop condition failing.  In order: the loop
condition, the pre-attempt budget check (line 52), the conditional
backoff sleep (lines 63-70), the post-delay time check (lines 72-77),
then the lookup attempt: a truthy result (`if (result)`, line 88) returns
immediately (line 91); a null or empty result or a thrown error continues
with the next attempt. -/
def retryLoop (lookup : Nat → Except Unit (Option String)) (lookupTime : Nat → Nat)
    (maxAttempts maxTotalTimeMs initialDelayMs : Nat) :
    Nat → Nat → Nat → Nat → Nat → List REvent → RetryRun
  | 0, _, _, _, count, acc => ⟨none, count, acc.reverse, .attemptsExhausted⟩
  | fuel + 1, attempt, elapsed, cumulativeDelay, count, acc =>
    if attempt > maxAttempts then ⟨none, count, acc.reverse, .attemptsExhausted⟩
    else if remainingBudget maxTotalTimeMs elapsed cumulativeDelay ≤ 0 then
      ⟨none, count, acc.reverse, .timeBeforeAttempt⟩
    else if sleptElapsed initialDelayMs maxTotalTimeMs attempt elapsed cumulativeDelay ≥
        maxTotalTimeMs then
      ⟨none, count,
        (sleptAcc initialDelayMs maxTotalTimeMs attempt elapsed cumulativeDelay acc).reverse,
        .timeAfterDelay⟩
    else
      if isTruthy (attemptResult (lookup attempt)) then
        ⟨attemptResult (lookup attempt), count + 1,
          (REvent.attempt attempt
              (sleptElapsed initialDelayMs maxTotalTimeMs attempt elapsed cumulativeDelay) ::
            sleptAcc initialDelayMs maxTotalTimeMs attempt elapsed cumulativeDelay acc).reverse,
          .success⟩
      else
        retryLoop lookup lookupTime maxAttempts maxTotalTimeMs initialDelayMs fuel
          (attempt + 1)
          (sleptElapsed initialDelayMs maxTotalTimeMs attempt elapsed cumulativeDelay +
            lookupTime attempt)
          (sleptCum initialDelayMs maxTotalTimeMs attempt elapsed cumulativeDelay)
          (count + 1)
          (REvent.attempt attempt
              (sleptElapsed initialDelayMs maxTotalTimeMs attempt elapsed cumulativeDelay) ::
            sleptAcc initialDelayMs maxTotalTimeMs attempt elapsed cumulativeDelay acc)

/-- `AdjustService.retrieveAdidWithRetry(maxAttempts, maxTotalTimeMs,
initialDelayMs)` (`src/unnamed/part_000`, lines 37-103). -/
def retrieveAdidWithRetry (lookup : Nat → Except Unit (Option String))
    (lookupTime : Nat → Nat) (maxAttempts maxTotalTimeMs initialDelayMs : Nat) : RetryRun :=
  retryLoop lookup lookupTime maxAttempts maxTotalTimeMs initialDelayMs
    maxAttempts 1 0 0 0 []

/-- The source's default arguments: `maxAttempts = 5`,
`maxTotalTimeMs = 10000`, `initialDelayMs = 500`. -/
def retrieveAdidWithRetryDefaults (lookup : Nat → Except Unit (Option String))
    (lookupTime : Nat → Nat) : RetryRun :=
  retrieveAdidWithRetry lookup lookupTime 5 10000 500

example :
    (retrieveAdidWithRetry (fun _ => .ok none) (fun _ => 0) 3 1000 100).events =
      [REvent.attempt 1 0, REvent.sleep 2 100 1000, REvent.attempt 2 100,
       REvent.sleep 3 200 800, REvent.attempt 3 300] := by decide

example :
    (retrieveAdidWithRetryDefaults
      (fun a => if a = 3 then .ok (some "abc") else .ok none) (fun _ => 0)).result
      = some "abc" := by decide

example :
    (retrieveAdidWithRetryDefaults (fun _ => .error ()) (fun _ => 0)).count = 5 := by
  decide

/-! ## SDKInitializer (`src/mobile/src/services/revenuecatService.ts`, lines 162-376) -/

/-- The `SDKInitializationStatus` record (lines 162-171); `error` is
`string | null`, modelled as `Option String`. -/
structure SDKInitializationStatus where
  isInitializing : Bool
  isCompleted : Bool
  attInitialized : Bool
  revenueCatInitialized : Bool
  adjustInitialized : Bool
  scateInitialized : Bool
  adidRetrieved : Bool
  error : Option String
deriving Repr, DecidableEq

/-- The all-false initial value of `_status` (lines 174-183). -/
def initialStatus : SDKInitializationStatus :=
  ⟨false, false, false, false, false, false, false, none⟩

/-- Internal state of the `SDKInitializer` singleton: the `_status` record
plus the `_initializationAttempted` flag (line 185). -/
structure InitializerState where
  status : SDKInitializationStatus
  initializationAttempted : Bool
deriving Repr, DecidableEq

/-- State of a freshly constructed `SDKInitializer`. -/
def initialState : InitializerState := ⟨initialStatus, false⟩

/-- Outcome of step 4's environment: `adjustStore.retrieveAdidWithRetry()`
either rejects (`throws`) or resolves, after which the adjust store's
`adid` field holds `adid : string | null` (modelled as `Option String`;
the source then tests its JS truthiness). -/
inductive AdidOutcome where
  | throws
  | retrieved (adid : Option String)
deriving Repr, DecidableEq

/-- Environment of one `initializeAll()` run: the platform and the
behaviour of each delegated store call.  A `some e` in a `...Throw` field
means that call throws with string representation `e`; `none` means it
succeeds. -/
structure StepEnv where
  isIOS : Bool
  revenueCatThrow : Option String
  attThrow : Option String
  adjustThrow : Option String
  scateThrow : Option String
  adid : AdidOutcome
deriving Repr, DecidableEq

/-- Whether step 4 records `adidRetrieved = true`: the retrieval resolved
and the store's final `adid` is truthy (lines 358-366; a rejection is
caught and records `false`, lines 367-371). -/
def adidSuccessFlag : AdidOutcome → Bool
  | .throws => false
  | .retrieved v => isTruthy v

/-- The five awaited initialization steps, in the source's fixed order
(ATT runs inside `_initializeAdjust` but strictly before the Adjust SDK
call, lines 304-318). -/
inductive Step where
  | revenueCat
  | att
  | adjust
  | scate
  | adidRetrieval
deriving Repr, DecidableEq

/-- `_initializeRevenueCat` (lines 282-295): invoke the RevenueCat store's
initialization; on success set `revenueCatInitialized`, on a throw wrap the
error.  Returns (state after the step, thrown message if any, calls made). -/
def initializeRevenueCatStep (s : InitializerState) (env : StepEnv) :
    InitializerState × Option String × List Step :=
  match env.revenueCatThrow with
  | none => ({ s with status.revenueCatInitialized := true }, none, [.revenueCat])
  | some e => (s, some ("RevenueCat initialization failed: " ++ e), [.revenueCat])

/-- `_initializeAdjust` (lines 300-326): on iOS, first run ATT
initialization and permission request and set `attInitialized`; on Android
set `attInitialized` without any call; then initialize the Adjust SDK and
set `adjustInitialized`.  Any throw is wrapped as an Adjust failure. -/
def initializeAdjustStep (s : InitializerState) (env : StepEnv) :
    InitializerState × Option String × List Step :=
  if env.isIOS then
    match env.attThrow with
    | some e => (s, some ("Adjust initialization failed: " ++ e), [.att])
    | none =>
      let s1 := { s with status.attInitialized := true }
      match env.adjustThrow with
      | some e => (s1, some ("Adjust initialization failed: " ++ e), [.att, .adjust])
      | none => ({ s1 with status.adjustInitialized := true }, none, [.att, .adjust])
  else
    let s1 := { s with status.attInitialized := true }
    match env.adjustThrow with
    | some e => (s1, some ("Adjust initialization failed: " ++ e), [.adjust])
    | none => ({ s1 with status.adjustInitialized := true }, none, [.adjust])

/-- `_initializeScate` (lines 331-344). -/
def initializeScateStep (s : InitializerState) (env : StepEnv) :
    InitializerState × Option String × List Step :=
  match env.scateThrow with
  | none => ({ s with status.scateInitialized := true }, none, [.scate])
  | some e => (s, some ("Scate initialization failed: " ++ e), [.scate])

/-- `_retrieveAdid` (lines 349-372): best-effort, catches internally and
never throws; sets `adidRetrieved` to the truthiness of the store's final
`adid`. -/
def retrieveAdidStep (s : InitializerState) (env : StepEnv) :
    InitializerState × List Step :=
  ({ s with status.adidRetrieved := adidSuccessFlag env.adid }, [.adidRetrieval])

/-- The mutations at the head of `initializeAll`'s `try` block (lines
210-212): set `_initializationAttempted`, `isInitializing`, clear `error`. -/
def beginRun (s : InitializerState) : InitializerState :=
  { s with initializationAttempted := true,
           status.isInitializing := true,
           status.error := none }

/-- The `catch` block of `initializeAll` (lines 236-244): record the
message, clear `isInitializing`, clear `_initializationAttempted` to allow
retry. -/
def onError (s : InitializerState) (msg : String) : InitializerState :=
  { s with status.error := some msg,
           status.isInitializing := false,
           initializationAttempted := false }

/-- The body of `initializeAll`'s `try`/`catch` (lines 209-244), run from
the state produced by `beginRun`: the four awaited steps in order, a throw
from steps 1-3 diverted to the `catch` block, then the success epilogue
(lines 230-234).  Returns (result of the promise, final state, calls
made). -/
def runSteps (s : InitializerState) (env : StepEnv) :
    Except String SDKInitializationStatus × InitializerState × List Step :=
  match initializeRevenueCatStep s env with
  | (s1, some m, t1) => (.error m, onError s1 m, t1)
  | (s1, none, t1) =>
    match initializeAdjustStep s1 env with
    | (s2, some m, t2) => (.error m, onError s2 m, t1 ++ t2)
    | (s2, none, t2) =>
      match initializeScateStep s2 env with
      | (s3, some m, t3) => (.error m, onError s3 m, t1 ++ t2 ++ t3)
      | (s3, none, t3) =>
        match retrieveAdidStep s3 env with
        | (s4, t4) =>
          let s5 : InitializerState :=
            { s4 with status.isCompleted := true, status.isInitializing := false }
          (.ok s5.status, s5, t1 ++ t2 ++ t3 ++ t4)

/-- `SDKInitializer.initializeAll()` (lines 198-245): the two
short-circuit guards, then the guarded run. -/
def initializeAll (s : InitializerState) (env : StepEnv) :
    Except String SDKInitializationStatus × InitializerState × List Step :=
  if s.initializationAttempted && s.status.isInitializing then
    (.ok s.status, s, [])
  else if s.status.isCompleted then
    (.ok s.status, s, [])
  else
    runSteps (beginRun s) env

/-- The delegated per-component reset calls made by `SDKInitializer.reset()`
(lines 255-258), in source order. -/
inductive ResetCall where
  | att
  | adjust
  | revenueCat
  | scate
deriving Repr, DecidableEq

/-- `SDKInitializer.reset()` (lines 250-277): call every store's reset,
then restore `_status` and `_initializationAttempted` to their initial
values.  Modelled from the spec: the four store `reset()` implementations
are not part of the sources here (only the services they wrap are); the
spec states the delegated resets are synchronous and do not fail, so they
are modelled as total calls recorded in the returned list. -/
def reset (_s : InitializerState) : InitializerState × List ResetCall :=
  (initialState, [.att, .adjust, .revenueCat, .scate])

/-- One external call to the initializer singleton. -/
inductive Op where
  | initAll (env : StepEnv)
  | doReset

/-- Apply one call, keeping only the state (exceptions propagate to the
caller and leave the stored state as modelled in `initializeAll`). -/
def applyOp (s : InitializerState) : Op → InitializerState
  | .initAll env => (initializeAll s env).2.1
  | .doReset => (reset s).1

/-- State of the singleton after a sequence of calls from process start. -/
def runOps (ops : List Op) : InitializerState :=
  ops.foldl applyOp initialState

/-- The fixed order of awaited step calls on each platform. -/
def fixedTrace (isIOS : Bool) : List Step :=
  if isIOS then [.revenueCat, .att, .adjust, .scate, .adidRetrieval]
  else [.revenueCat, .adjust, .scate, .adidRetrieval]

/-- A state in which `initializeAll` is not short-circuited by either
guard. -/
def startable (s : InitializerState) : Prop :=
  (s.initializationAttempted && s.status.isInitializing) = false ∧
    s.status.isCompleted = false

/-- Environment in which every fatal-capable delegated call succeeds
(ATT only matters on iOS). -/
def allSucceed (env : StepEnv) : Prop :=
  env.revenueCatThrow = none ∧ (env.isIOS = true → env.attThrow = none) ∧
    env.adjustThrow = none ∧ env.scateThrow = none

example :
    (initializeAll initialState
      ⟨true, none, none, none, none, .retrieved (some "adid1")⟩).2.2 =
      fixedTrace true := by decide

example :
    (initializeAll initialState
      ⟨true, none, none, some "boom", none, .retrieved none⟩).1 =
      .error "Adjust initialization failed: boom" := rfl

/-! ## Helper lemmas about `initializeAll` -/

/-- If the first guard fires, `initializeAll` is a pure no-op returning the
current status. -/
theorem guard_noop (s : InitializerState) (env : StepEnv)
    (h : (s.initializationAttempted && s.status.isInitializing) = true) :
    initializeAll s env = (.ok s.status, s, []) := by
  simp [initializeAll, h]

/-- From a startable state, `initializeAll` runs the step sequence. -/
theorem startable_run (s : InitializerState) (env : StepEnv) (h : startable s) :
    initializeAll s env = runSteps (beginRun s) env := by
  obtain ⟨h1, h2⟩ := h
  simp [initializeAll, h1, h2]

/-- The calls made by `runSteps` always form a front segment of the fixed
order. -/
theorem runSteps_front (s : InitializerState) (env : StepEnv) :
    ∃ rest, (runSteps s env).2.2 ++ rest = fixedTrace env.isIOS := by
  obtain ⟨ios, rc, att, adj, sc, adid⟩ := env
  cases ios <;> cases rc <;> cases att <;> cases adj <;> cases sc <;>
    simp only [runSteps, initializeRevenueCatStep, initializeAdjustStep,
      initializeScateStep, retrieveAdidStep, fixedTrace] <;>
    exact ⟨_, rfl⟩

/-- Final state of an all-successful run of the step sequence. -/
def successState (s : InitializerState) (env : StepEnv) : InitializerState :=
  { s with status := { s.status with
      revenueCatInitialized := true,
      attInitialized := true,
      adjustInitialized := true,
      scateInitialized := true,
      adidRetrieved := adidSuccessFlag env.adid,
      isCompleted := true,
      isInitializing := false } }

/-- When every fatal-capable delegated call succeeds, `runSteps` makes all
calls in the fixed order and resolves with the success state. -/
theorem runSteps_success (s : InitializerState) (env : StepEnv) (h : allSucceed env) :
    runSteps s env =
      (.ok (successState s env).status, successState s env, fixedTrace env.isIOS) := by
  obtain ⟨h1, h2, h3, h4⟩ := h
  obtain ⟨⟨ii, ic, ai, ri, ji, si, ar, er⟩, ia⟩ := s
  obtain ⟨ios, rc, att, adj, sc, adid⟩ := env
  cases rc with
  | some e => exact absurd h1 (by simp)
  | none =>
  cases adj with
  | some e => exact absurd h3 (by simp)
  | none =>
  cases sc with
  | some e => exact absurd h4 (by simp)
  | none =>
  cases ios with
  | false =>
    simp [runSteps, initializeRevenueCatStep, initializeAdjustStep,
      initializeScateStep, retrieveAdidStep, fixedTrace, successState]
  | true =>
    cases att with
    | some e => exact absurd (h2 rfl) (by simp)
    | none =>
      simp [runSteps, initializeRevenueCatStep, initializeAdjustStep,
        initializeScateStep, retrieveAdidStep, fixedTrace, successState]

/-- A rejected run of the step sequence leaves `error` holding the thrown
message, clears `isInitializing` and the retry flag, preserves
`isCompleted`, and the message names the failing step. -/
theorem runSteps_error_state (s : InitializerState) (env : StepEnv)
    (m : String) (h : (runSteps s env).1 = .error m) :
    (runSteps s env).2.1.status.error = some m ∧
      (runSteps s env).2.1.status.isInitializing = false ∧
      (runSteps s env).2.1.initializationAttempted = false ∧
      (runSteps s env).2.1.status.isCompleted = s.status.isCompleted ∧
      ((∃ e, m = "RevenueCat initialization failed: " ++ e) ∨
        (∃ e, m = "Adjust initialization failed: " ++ e) ∨
        (∃ e, m = "Scate initialization failed: " ++ e)) := by
  obtain ⟨ios, rc, att, adj, sc, adid⟩ := env
  cases ios <;> cases rc <;> cases att <;> cases adj <;> cases sc <;>
    simp [runSteps, initializeRevenueCatStep, initializeAdjustStep,
      initializeScateStep, retrieveAdidStep, onError] at h ⊢ <;>
    subst h <;>
    first
      | exact ⟨rfl, Or.inl ⟨_, rfl⟩⟩
      | exact ⟨rfl, Or.inr (Or.inl ⟨_, rfl⟩)⟩
      | exact ⟨rfl, Or.inr (Or.inr ⟨_, rfl⟩)⟩

/-- A resolved run of the step sequence completed: `isCompleted` is set and
`error` is untouched from the state the run began in. -/
theorem runSteps_ok_state (s : InitializerState) (env : StepEnv)
    (st : SDKInitializationStatus) (h : (runSteps s env).1 = .ok st) :
    (runSteps s env).2.1.status.error = s.status.error ∧
      (runSteps s env).2.1.status.isCompleted = true := by
  obtain ⟨ios, rc, att, adj, sc, adid⟩ := env
  cases ios <;> cases rc <;> cases att <;> cases adj <;> cases sc <;>
    simp [runSteps, initializeRevenueCatStep, initializeAdjustStep,
      initializeScateStep, retrieveAdidStep, onError] at h ⊢

/-! ## Claims about the SDKInitializer -/

/-- C1: a non-short-circuited `initializeAll()` run makes its awaited step
calls in the fixed order RevenueCat, ATT permission, Adjust, Scate, ADID
retrieval (ATT executes only on iOS), each step beginning only after the
previous one resolves: the call list is always a front segment of that
fixed order, and is exactly it when every step succeeds; and every step
that is called and succeeds has its status flag set `true` in the
resulting state. -/
theorem initializeAll_fixed_order (s : InitializerState) (env : StepEnv)
    (hs : startable s) :
    (∃ rest, (initializeAll s env).2.2 ++ rest = fixedTrace env.isIOS) ∧
    (allSucceed env → (initializeAll s env).2.2 = fixedTrace env.isIOS) ∧
    (Step.revenueCat ∈ (initializeAll s env).2.2 → env.revenueCatThrow = none →
      (initializeAll s env).2.1.status.revenueCatInitialized = true) ∧
    (Step.att ∈ (initializeAll s env).2.2 → env.attThrow = none →
      (initializeAll s env).2.1.status.attInitialized = true) ∧
    (Step.adjust ∈ (initializeAll s env).2.2 → env.adjustThrow = none →
      (initializeAll s env).2.1.status.adjustInitialized = true) ∧
    (Step.scate ∈ (initializeAll s env).2.2 → env.scateThrow = none →
      (initializeAll s env).2.1.status.scateInitialized = true) ∧
    (Step.adidRetrieval ∈ (initializeAll s env).2.2 →
      (initializeAll s env).2.1.status.adidRetrieved = adidSuccessFlag env.adid) := by
  rw [startable_run s env hs]
  refine ⟨runSteps_front _ _, ?_⟩
  obtain ⟨ios, rc, att, adj, sc, adid⟩ := env
  cases ios <;> cases rc <;> cases att <;> cases adj <;> cases sc <;>
    simp [runSteps, initializeRevenueCatStep, initializeAdjustStep,
      initializeScateStep, retrieveAdidStep, onError, beginRun, fixedTrace,
      allSucceed]

/-- Witness for C1: from the fresh state, with every delegated call
succeeding on iOS, the run makes exactly the fixed sequence of calls. -/
theorem initializeAll_fixed_order_witness :
    startable initialState ∧
      (initializeAll initialState
        ⟨true, none, none, none, none, .retrieved (some "adid1")⟩).2.2 =
        fixedTrace true :=
  ⟨⟨rfl, rfl⟩,
    (initializeAll_fixed_order initialState
      ⟨true, none, none, none, none, .retrieved (some "adid1")⟩
      ⟨rfl, rfl⟩).2.1 ⟨rfl, fun _ => rfl, rfl, rfl⟩⟩

/-- C2: when a step other than the best-effort one throws during a
non-short-circuited run, the stored `error` carries the thrown message,
`isInitializing` and the attempt flag are cleared, the message names the
failing step, the error is the caller-visible result (the hypothesis), and
the resulting state is startable again with a subsequent successful call
making all step calls from the first one. -/
theorem initializeAll_error_propagation (s : InitializerState) (env : StepEnv)
    (m : String) (hs : startable s)
    (h : (initializeAll s env).1 = .error m) :
    (initializeAll s env).2.1.status.error = some m ∧
    (initializeAll s env).2.1.status.isInitializing = false ∧
    (initializeAll s env).2.1.initializationAttempted = false ∧
    ((∃ e, m = "RevenueCat initialization failed: " ++ e) ∨
      (∃ e, m = "Adjust initialization failed: " ++ e) ∨
      (∃ e, m = "Scate initialization failed: " ++ e)) ∧
    startable (initializeAll s env).2.1 ∧
    (∀ env', allSucceed env' →
      (initializeAll (initializeAll s env).2.1 env').2.2 = fixedTrace env'.isIOS) := by
  rw [startable_run s env hs] at h ⊢
  obtain ⟨h1, h2, h3, h4, h5⟩ := runSteps_error_state (beginRun s) env m h
  have hc : (runSteps (beginRun s) env).2.1.status.isCompleted = false := by
    rw [h4]; simpa [beginRun] using hs.2
  have hst : startable (runSteps (beginRun s) env).2.1 := by
    refine ⟨?_, hc⟩
    rw [h3]
    rfl
  refine ⟨h1, h2, h3, h5, hst, ?_⟩
  intro env' ha
  rw [startable_run _ env' hst, runSteps_success _ env' ha]

/-- Witness for C2: RevenueCat's store throws `"boom"` from the fresh
state; the message, the state fields, and the full re-run are as stated. -/
theorem initializeAll_error_propagation_witness :
    startable initialState ∧
      (initializeAll initialState
          ⟨false, some "boom", none, none, none, .retrieved none⟩).1 =
        .error "RevenueCat initialization failed: boom" ∧
      (initializeAll initialState
          ⟨false, some "boom", none, none, none, .retrieved none⟩).2.1.status.error =
        some "RevenueCat initialization failed: boom" :=
  ⟨⟨rfl, rfl⟩, rfl,
    (initializeAll_error_propagation initialState
      ⟨false, some "boom", none, none, none, .retrieved none⟩
      "RevenueCat initialization failed: boom" ⟨rfl, rfl⟩ rfl).1⟩

/-- C3: if every fatal-capable step succeeds but the best-effort ADID step
throws or yields no (truthy) identifier, the run still resolves (the
result is `.ok`), `isCompleted` becomes `true`, `adidRetrieved` is
recorded `false` and no error is stored. -/
theorem initializeAll_bestEffort_nonfatal (s : InitializerState) (env : StepEnv)
    (hs : startable s) (hall : allSucceed env)
    (hfail : adidSuccessFlag env.adid = false) :
    (initializeAll s env).1 = .ok (successState (beginRun s) env).status ∧
    (initializeAll s env).2.1.status.isCompleted = true ∧
    (initializeAll s env).2.1.status.adidRetrieved = false ∧
    (initializeAll s env).2.1.status.error = none := by
  rw [startable_run s env hs, runSteps_success _ _ hall]
  refine ⟨rfl, rfl, ?_, ?_⟩ <;> simp [successState, beginRun, hfail]

/-- Witness for C3: the retrieval rejects; the sequence still completes. -/
theorem initializeAll_bestEffort_nonfatal_witness :
    startable initialState ∧
      adidSuccessFlag (AdidOutcome.throws) = false ∧
      (initializeAll initialState ⟨false, none, none, none, none, .throws⟩).2.1.status.isCompleted
        = true :=
  ⟨⟨rfl, rfl⟩, rfl,
    (initializeAll_bestEffort_nonfatal initialState
      ⟨false, none, none, none, none, .throws⟩ ⟨rfl, rfl⟩
      ⟨rfl, fun h => (Bool.false_ne_true h).elim, rfl, rfl⟩ rfl).2.1⟩

/-- The states of the initializer at the successive await points of a run
started from `s`: after the guarded prologue and after each step. -/
def midRunStates (s : InitializerState) (env : StepEnv) : List InitializerState :=
  let s1 := beginRun s
  let r1 := initializeRevenueCatStep s1 env
  let r2 := initializeAdjustStep r1.1 env
  let r3 := initializeScateStep r2.1 env
  let r4 := retrieveAdidStep r3.1 env
  [s1, r1.1, r2.1, r3.1, r4.1]

/-- C4: a call made while a run is in progress (both `isInitializing` and
the attempt flag set — which holds at every await point of a run) returns
the current status with no state change and no step calls; a call made in
any completed state (`isCompleted` true) likewise returns the current
status with no state change and no step calls; consequently, when a
second call is issued after a first call (from a startable state) has
passed its guards, the combined step calls of the two invocations perform
each step exactly once. -/
theorem initializeAll_reentrant_noop (s s₀ : InitializerState)
    (env env' env₀ : StepEnv)
    (h1 : s.initializationAttempted = true) (h2 : s.status.isInitializing = true)
    (hs : startable s₀) (hall : allSucceed env₀) :
    initializeAll s env = (.ok s.status, s, []) ∧
    (∀ (s₁ : InitializerState) (envc : StepEnv), s₁.status.isCompleted = true →
      initializeAll s₁ envc = (.ok s₁.status, s₁, [])) ∧
    (∀ st ∈ midRunStates s₀ env₀, initializeAll st env' = (.ok st.status, st, [])) ∧
    (initializeAll (beginRun s₀) env').2.2 = [] ∧
    (∀ st ∈ fixedTrace env₀.isIOS,
      ((initializeAll (beginRun s₀) env').2.2 ++
        (runSteps ((initializeAll (beginRun s₀) env').2.1) env₀).2.2).count st = 1) := by
  have hg0 : ((beginRun s₀).initializationAttempted &&
      (beginRun s₀).status.isInitializing) = true := rfl
  refine ⟨guard_noop s env (by simp [h1, h2]), ?_, ?_, ?_, ?_⟩
  · intro s₁ envc hcomp
    by_cases hg : (s₁.initializationAttempted && s₁.status.isInitializing) = true
    · exact guard_noop s₁ envc hg
    · simp only [initializeAll]
      rw [if_neg hg, if_pos hcomp]
  · intro st hst
    obtain ⟨ios, rc, att, adj, sc, adid⟩ := env₀
    cases ios <;> cases rc <;> cases att <;> cases adj <;> cases sc <;>
      simp only [midRunStates, beginRun, initializeRevenueCatStep,
        initializeAdjustStep, initializeScateStep, retrieveAdidStep,
        List.mem_cons, List.not_mem_nil, or_false] at hst <;>
      rcases hst with h | h | h | h | h <;> subst h <;>
      simp [initializeAll]
  · rw [guard_noop _ env' hg0]
  · rw [guard_noop _ env' hg0, runSteps_success _ _ hall]
    cases henv : env₀.isIOS <;> simp [fixedTrace]

/-- Witness for C4: the second call arrives right after the first call's
prologue from the fresh state and is a pure no-op, and a call in a
concrete completed state is a pure no-op as well. -/
theorem initializeAll_reentrant_noop_witness :
    (beginRun initialState).initializationAttempted = true ∧
      (beginRun initialState).status.isInitializing = true ∧
      startable initialState ∧
      initializeAll (beginRun initialState)
          ⟨true, none, none, none, none, .retrieved (some "x")⟩ =
        (.ok (beginRun initialState).status, beginRun initialState, []) ∧
      (InitializerState.mk ⟨false, true, true, true, true, true, true, none⟩
          true).status.isCompleted = true ∧
      initializeAll ⟨⟨false, true, true, true, true, true, true, none⟩, true⟩
          ⟨true, none, none, none, none, .retrieved (some "x")⟩ =
        (.ok (InitializerState.mk ⟨false, true, true, true, true, true, true, none⟩
            true).status,
          ⟨⟨false, true, true, true, true, true, true, none⟩, true⟩, []) := by
  have h := initializeAll_reentrant_noop (beginRun initialState) initialState
    ⟨true, none, none, none, none, .retrieved (some "x")⟩
    ⟨true, none, none, none, none, .retrieved (some "x")⟩
    ⟨true, none, none, none, none, .retrieved (some "x")⟩
    rfl rfl ⟨rfl, rfl⟩ ⟨rfl, fun _ => rfl, rfl, rfl⟩
  exact ⟨rfl, rfl, ⟨rfl, rfl⟩, h.1, rfl,
    h.2.1 ⟨⟨false, true, true, true, true, true, true, none⟩, true⟩
      ⟨true, none, none, none, none, .retrieved (some "x")⟩ rfl⟩

/-- One step of the call-sequence semantics preserves the exclusivity of
`isCompleted` and a stored error. -/
theorem applyOp_preserves_inv (s : InitializerState) (op : Op)
    (h : s.status.isCompleted = true → s.status.error = none) :
    (applyOp s op).status.isCompleted = true → (applyOp s op).status.error = none := by
  cases op with
  | doReset => intro _; rfl
  | initAll env =>
    by_cases hg : (s.initializationAttempted && s.status.isInitializing) = true
    · rw [applyOp, guard_noop s env hg]
      exact h
    · by_cases hc : s.status.isCompleted = true
      · have hguard : initializeAll s env = (.ok s.status, s, []) := by
          simp [initializeAll, hg, hc]
        rw [applyOp, hguard]
        exact h
      · have hb : s.status.isCompleted = false := by simpa using hc
        have hst : startable s := ⟨by simpa using hg, hb⟩
        rw [applyOp, startable_run s env hst]
        rcases hres : (runSteps (beginRun s) env).1 with m | st
        · obtain ⟨-, -, -, h4, -⟩ := runSteps_error_state (beginRun s) env m hres
          intro hcc
          rw [h4] at hcc
          simp [beginRun, hb] at hcc
        · obtain ⟨he, -⟩ := runSteps_ok_state (beginRun s) env st hres
          intro _
          rw [he]
          rfl

/-- The exclusivity invariant holds along any call sequence. -/
theorem foldl_preserves_inv (ops : List Op) :
    ∀ s : InitializerState, (s.status.isCompleted = true → s.status.error = none) →
      ((ops.foldl applyOp s).status.isCompleted = true →
        (ops.foldl applyOp s).status.error = none) := by
  induction ops with
  | nil => intro s h; simpa using h
  | cons op ops ih =>
    intro s h
    rw [List.foldl_cons]
    exact ih _ (applyOp_preserves_inv s op h)

/-- C8: in every state reachable from process start by any sequence of
`initializeAll()` and `reset()` calls, with steps succeeding or throwing
arbitrarily, `isCompleted = true` and a non-null `error` never hold
together. -/
theorem completed_error_mutually_exclusive (ops : List Op) :
    ¬((runOps ops).status.isCompleted = true ∧ (runOps ops).status.error ≠ none) := by
  rintro ⟨hc, he⟩
  exact he (foldl_preserves_inv ops initialState (fun _ => rfl) hc)

/-- Witness for C8: a failing run followed by a successful one and a
reset. -/
theorem completed_error_mutually_exclusive_witness :
    ¬((runOps [Op.initAll ⟨true, none, some "e", none, none, .retrieved none⟩,
        Op.initAll ⟨true, none, none, none, none, .retrieved (some "x")⟩,
        Op.doReset]).status.isCompleted = true ∧
      (runOps [Op.initAll ⟨true, none, some "e", none, none, .retrieved none⟩,
        Op.initAll ⟨true, none, none, none, none, .retrieved (some "x")⟩,
        Op.doReset]).status.error ≠ none) :=
  completed_error_mutually_exclusive
    [Op.initAll ⟨true, none, some "e", none, none, .retrieved none⟩,
     Op.initAll ⟨true, none, none, none, none, .retrieved (some "x")⟩,
     Op.doReset]

/-- C9: every `reset()` call, from any state (also the idle one), invokes
the reset of all four delegated components and restores the all-false
initial status with `error = null`; the operation is total (it cannot
throw). -/
theorem reset_resets_all (s : InitializerState) :
    reset s =
      (initialState,
        [ResetCall.att, ResetCall.adjust, ResetCall.revenueCat, ResetCall.scate]) := rfl

/-! ## Lemmas about the retry loop -/

/-- An attempt event in the post-sleep log was already in the log before
the sleep. -/
theorem attempt_mem_sleptAcc (d0 T a el cu : Nat) (acc : List REvent) (K e : Nat)
    (h : REvent.attempt K e ∈ sleptAcc d0 T a el cu acc) :
    REvent.attempt K e ∈ acc := by
  unfold sleptAcc at h
  split at h
  · rcases List.mem_cons.mp h with h1 | h1
    · exact absurd h1 (by simp)
    · exact h1
  · exact h

/-- Sleep events inserted by the pre-attempt wait carry an attempt index
of at least 2 and a duration of exactly
`min (initialDelayMs * 2^(a-2)) r` for the recorded remaining budget `r`. -/
theorem sleep_shape_sleptAcc (d0 T a el cu : Nat) (acc : List REvent)
    (hacc : ∀ a' d r, REvent.sleep a' d r ∈ acc →
      2 ≤ a' ∧ d = min (d0 * 2 ^ (a' - 2)) r) :
    ∀ a' d r, REvent.sleep a' d r ∈ sleptAcc d0 T a el cu acc →
      2 ≤ a' ∧ d = min (d0 * 2 ^ (a' - 2)) r := by
  intro a' d r h
  unfold sleptAcc at h
  split at h
  · next hgt =>
    rcases List.mem_cons.mp h with h1 | h1
    · injection h1 with e1 e2 e3
      subst e1
      subst e2
      subst e3
      refine ⟨by omega, ?_⟩
      unfold backoffDelay
      rw [if_neg (by omega)]
    · exact hacc a' d r h1
  · exact hacc a' d r h

/-- Shape of the event log of any run: every recorded sleep precedes an
attempt numbered at least 2 and slept for exactly
`min (initialDelayMs * 2^(a-2), remaining budget)`; every recorded attempt
began strictly before the wall-clock budget was reached. -/
theorem retryLoop_events_shape (lookup : Nat → Except Unit (Option String))
    (lookupTime : Nat → Nat) (maxAttempts maxTotalTimeMs initialDelayMs : Nat) :
    ∀ fuel attempt elapsed cum count acc,
      (∀ a d r, REvent.sleep a d r ∈ acc →
        2 ≤ a ∧ d = min (initialDelayMs * 2 ^ (a - 2)) r) →
      (∀ a e, REvent.attempt a e ∈ acc → e < maxTotalTimeMs) →
      (∀ a d r, REvent.sleep a d r ∈ (retryLoop lookup lookupTime maxAttempts
          maxTotalTimeMs initialDelayMs fuel attempt elapsed cum count acc).events →
        2 ≤ a ∧ d = min (initialDelayMs * 2 ^ (a - 2)) r) ∧
      (∀ a e, REvent.attempt a e ∈ (retryLoop lookup lookupTime maxAttempts
          maxTotalTimeMs initialDelayMs fuel attempt elapsed cum count acc).events →
        e < maxTotalTimeMs) := by
  intro fuel
  induction fuel with
  | zero =>
    intro attempt elapsed cum count acc hs ha
    simp only [retryLoop]
    constructor
    · intro a d r h
      rw [List.mem_reverse] at h
      exact hs a d r h
    · intro a e h
      rw [List.mem_reverse] at h
      exact ha a e h
  | succ fuel ih =>
    intro attempt elapsed cum count acc hs ha
    simp only [retryLoop]
    by_cases hgt : attempt > maxAttempts
    · rw [if_pos hgt]
      constructor
      · intro a d r h
        rw [List.mem_reverse] at h
        exact hs a d r h
      · intro a e h
        rw [List.mem_reverse] at h
        exact ha a e h
    · rw [if_neg hgt]
      by_cases hrem : remainingBudget maxTotalTimeMs elapsed cum ≤ 0
      · rw [if_pos hrem]
        constructor
        · intro a d r h
          rw [List.mem_reverse] at h
          exact hs a d r h
        · intro a e h
          rw [List.mem_reverse] at h
          exact ha a e h
      · rw [if_neg hrem]
        by_cases hel : sleptElapsed initialDelayMs maxTotalTimeMs attempt elapsed cum ≥
            maxTotalTimeMs
        · rw [if_pos hel]
          constructor
          · intro a d r h
            rw [List.mem_reverse] at h
            exact sleep_shape_sleptAcc _ _ _ _ _ _ hs a d r h
          · intro a e h
            rw [List.mem_reverse] at h
            exact ha a e (attempt_mem_sleptAcc _ _ _ _ _ _ _ _ h)
        · rw [if_neg hel]
          have hs2 : ∀ a d r, REvent.sleep a d r ∈
              (REvent.attempt attempt
                  (sleptElapsed initialDelayMs maxTotalTimeMs attempt elapsed cum) ::
                sleptAcc initialDelayMs maxTotalTimeMs attempt elapsed cum acc) →
              2 ≤ a ∧ d = min (initialDelayMs * 2 ^ (a - 2)) r := by
            intro a d r h
            rcases List.mem_cons.mp h with h1 | h1
            · exact absurd h1 (by simp)
            · exact sleep_shape_sleptAcc _ _ _ _ _ _ hs a d r h1
          have ha2 : ∀ a e, REvent.attempt a e ∈
              (REvent.attempt attempt
                  (sleptElapsed initialDelayMs maxTotalTimeMs attempt elapsed cum) ::
                sleptAcc initialDelayMs maxTotalTimeMs attempt elapsed cum acc) →
              e < maxTotalTimeMs := by
            intro a e h
            rcases List.mem_cons.mp h with h1 | h1
            · injection h1 with e1 e2
              subst e2
              omega
            · exact ha a e (attempt_mem_sleptAcc _ _ _ _ _ _ _ _ h1)
          by_cases htr : isTruthy (attemptResult (lookup attempt)) = true
          · rw [if_pos htr]
            constructor
            · intro a d r h
              rw [List.mem_reverse] at h
              exact hs2 a d r h
            · intro a e h
              rw [List.mem_reverse] at h
              exact ha2 a e h
          · rw [if_neg htr]
            exact ih (attempt + 1)
              (sleptElapsed initialDelayMs maxTotalTimeMs attempt elapsed cum +
                lookupTime attempt)
              (sleptCum initialDelayMs maxTotalTimeMs attempt elapsed cum)
              (count + 1) _ hs2 ha2

/-- If the recomputed remaining budget is not positive when the loop
considers an attempt that is still within the attempt bound, the loop
stops at once: null result, no lookup made, no time consumed. -/
theorem retryLoop_budget_stop (lookup : Nat → Except Unit (Option String))
    (lookupTime : Nat → Nat) (maxAttempts maxTotalTimeMs initialDelayMs : Nat)
    (fuel attempt elapsed cum count : Nat) (acc : List REvent)
    (hle : ¬ attempt > maxAttempts)
    (hb : remainingBudget maxTotalTimeMs elapsed cum ≤ 0) :
    retryLoop lookup lookupTime maxAttempts maxTotalTimeMs initialDelayMs
        (fuel + 1) attempt elapsed cum count acc =
      ⟨none, count, acc.reverse, .timeBeforeAttempt⟩ := by
  simp only [retryLoop]
  rw [if_neg hle, if_pos hb]

/-! ## Claims about the retry helper -/

/-- C6: the first attempt is made with no preceding sleep, every recorded
sleep precedes an attempt numbered at least 2 and lasts exactly
`min (initialDelayMs * 2^(a-2), remaining budget)`; `maxAttempts = 1` with
a positive budget performs exactly one attempt at elapsed time 0 with no
sleep; and in the spec scenario (`maxAttempts = 3`,
`initialDelayMs = 100`, `maxTotalTimeMs = 1000`, lookup always null) the
delays before attempts 2 and 3 are 100 ms and 200 ms. -/
theorem retrieveAdidWithRetry_backoff_delays
    (lookup : Nat → Except Unit (Option String)) (lookupTime : Nat → Nat)
    (maxAttempts maxTotalTimeMs initialDelayMs : Nat) :
    (∀ a d r, REvent.sleep a d r ∈
        (retrieveAdidWithRetry lookup lookupTime maxAttempts maxTotalTimeMs
          initialDelayMs).events →
      2 ≤ a ∧ d = min (initialDelayMs * 2 ^ (a - 2)) r) ∧
    (maxAttempts = 1 → 0 < maxTotalTimeMs →
      (retrieveAdidWithRetry lookup lookupTime maxAttempts maxTotalTimeMs
          initialDelayMs).events = [REvent.attempt 1 0] ∧
      (retrieveAdidWithRetry lookup lookupTime maxAttempts maxTotalTimeMs
          initialDelayMs).count = 1) ∧
    (retrieveAdidWithRetry (fun _ => .ok none) (fun _ => 0) 3 1000 100).events =
      [REvent.attempt 1 0, REvent.sleep 2 100 1000, REvent.attempt 2 100,
        REvent.sleep 3 200 800, REvent.attempt 3 300] := by
  refine ⟨?_, ?_, by decide⟩
  · simp only [retrieveAdidWithRetry]
    exact (retryLoop_events_shape lookup lookupTime maxAttempts maxTotalTimeMs
      initialDelayMs maxAttempts 1 0 0 0 [] (by simp) (by simp)).1
  · rintro rfl hT
    simp only [retrieveAdidWithRetry, retryLoop]
    rw [if_neg (show ¬ (1 : Nat) > 1 by omega)]
    rw [if_neg (show ¬ remainingBudget maxTotalTimeMs 0 0 ≤ 0 by
      unfold remainingBudget; omega)]
    rw [if_neg (show ¬ sleptElapsed initialDelayMs maxTotalTimeMs 1 0 0 ≥ maxTotalTimeMs by
      unfold sleptElapsed; simp; omega)]
    by_cases htr : isTruthy (attemptResult (lookup 1)) = true
    · rw [if_pos htr]
      simp [sleptElapsed, sleptAcc]
    · rw [if_neg htr]
      simp [retryLoop, sleptElapsed, sleptAcc]

/-- Witness for C6: `maxAttempts = 1` with budget 1000 makes exactly one
attempt at elapsed 0. -/
theorem retrieveAdidWithRetry_backoff_delays_witness :
    (1 : Nat) = 1 ∧ (0 : Nat) < 1000 ∧
      (retrieveAdidWithRetry (fun _ => .ok none) (fun _ => 0) 1 1000 100).events =
        [REvent.attempt 1 0] :=
  ⟨rfl, by omega,
    ((retrieveAdidWithRetry_backoff_delays (fun _ => .ok none) (fun _ => 0)
      1 1000 100).2.1 rfl (by omega)).1⟩

/-- C7: no lookup attempt of a run begins once the elapsed wall clock has
reached `maxTotalTimeMs` (every recorded attempt starts strictly below the
budget), and whenever the loop reaches an attempt (within the attempt
bound) with recomputed remaining budget
`maxTotalTimeMs - elapsed - cumulativeDelay ≤ 0`, it stops at once and
returns null without invoking the lookup. -/
theorem retrieveAdidWithRetry_time_budget
    (lookup : Nat → Except Unit (Option String)) (lookupTime : Nat → Nat)
    (maxAttempts maxTotalTimeMs initialDelayMs fuel attempt elapsed cum count : Nat)
    (acc : List REvent)
    (hle : ¬ attempt > maxAttempts)
    (hb : remainingBudget maxTotalTimeMs elapsed cum ≤ 0) :
    (∀ a e, REvent.attempt a e ∈
        (retrieveAdidWithRetry lookup lookupTime maxAttempts maxTotalTimeMs
          initialDelayMs).events →
      e < maxTotalTimeMs) ∧
    retryLoop lookup lookupTime maxAttempts maxTotalTimeMs initialDelayMs
        (fuel + 1) attempt elapsed cum count acc =
      ⟨none, count, acc.reverse, .timeBeforeAttempt⟩ := by
  constructor
  · simp only [retrieveAdidWithRetry]
    exact (retryLoop_events_shape lookup lookupTime maxAttempts maxTotalTimeMs
      initialDelayMs maxAttempts 1 0 0 0 [] (by simp) (by simp)).2
  · exact retryLoop_budget_stop lookup lookupTime maxAttempts maxTotalTimeMs
      initialDelayMs fuel attempt elapsed cum count acc hle hb

/-- Witness for C7: with budget 5 and elapsed 7, the loop stops before
attempt 1 without a lookup. -/
theorem retrieveAdidWithRetry_time_budget_witness :
    ¬ (1 : Nat) > 2 ∧ remainingBudget 5 7 0 ≤ 0 ∧
      retryLoop (fun _ => .ok none) (fun _ => 0) 2 5 100 2 1 7 0 0 [] =
        ⟨none, 0, [], .timeBeforeAttempt⟩ :=
  ⟨by omega, by decide,
    (retrieveAdidWithRetry_time_budget (fun _ => .ok none) (fun _ => 0) 2 5 100 1 1 7 0 0 []
      (by omega) (by decide)).2⟩

/-! ## The `status` getter (lines 190-192)

`get status()` returns `{ ...this._status }`: a fresh shallow copy of the
internal record.  Object identity and aliasing are modelled with a tiny
heap: `cells` maps references (allocated so far: those below `next`) to
status records; the initializer's own record lives at some reference
`selfRef`. -/

/-- A heap of `SDKInitializationStatus` records. -/
structure StatusHeap where
  cells : Nat → SDKInitializationStatus
  next : Nat

/-- The getter: allocate a fresh reference holding a copy of the record at
`selfRef` and return it (`return { ...this._status }`). -/
def statusGetter (h : StatusHeap) (selfRef : Nat) : Nat × StatusHeap :=
  (h.next,
    { cells := fun n => if n = h.next then h.cells selfRef else h.cells n,
      next := h.next + 1 })

/-- An in-place mutation of the record stored at reference `r`. -/
def writeCell (h : StatusHeap) (r : Nat) (v : SDKInitializationStatus) : StatusHeap :=
  { h with cells := fun n => if n = r then v else h.cells n }

/-- C10: the `status` getter returns a fresh copy of the internal record:
the returned reference holds the same record value but is distinct from
the initializer's own reference, mutating the returned record leaves the
internal record (hence all later behaviour) unchanged, and a later
internal mutation leaves the previously returned record unchanged. -/
theorem status_getter_fresh_copy (h : StatusHeap) (selfRef : Nat)
    (hw : selfRef < h.next) :
    (statusGetter h selfRef).2.cells (statusGetter h selfRef).1 = h.cells selfRef ∧
    (statusGetter h selfRef).1 ≠ selfRef ∧
    (∀ v, (writeCell (statusGetter h selfRef).2 (statusGetter h selfRef).1 v).cells selfRef
      = h.cells selfRef) ∧
    (∀ v, (writeCell (statusGetter h selfRef).2 selfRef v).cells (statusGetter h selfRef).1
      = h.cells selfRef) := by
  have hne : h.next ≠ selfRef := Nat.ne_of_gt hw
  refine ⟨?_, hne, ?_, ?_⟩ <;>
    simp [statusGetter, writeCell, hne, Ne.symm hne]

/-- Witness for C10 on a one-cell heap. -/
theorem status_getter_fresh_copy_witness :
    (0 : Nat) < (StatusHeap.mk (fun _ => initialStatus) 1).next ∧
      (statusGetter (StatusHeap.mk (fun _ => initialStatus) 1) 0).1 ≠ 0 :=
  ⟨Nat.zero_lt_one,
    (status_getter_fresh_copy (StatusHeap.mk (fun _ => initialStatus) 1) 0
      Nat.zero_lt_one).2.1⟩

end MobileSDK
